import Mathlib

/-!
Verification of the object materialization and state-synchronization engine
of the rose_trellis Trello ORM (`rosetrellis/models.py`,
`rosetrellis/base/obj_cache.py`).

The Python code is shallowly embedded: Python values flowing through the
engine become `PyVal`, Python exceptions become `PyErr` results in `Except`,
the process-wide object cache becomes a `String → Option Nat` map from ids
to heap references, and each `TrelloObject` instance becomes an `Obj` (its
dynamic attribute dict plus its `_raw_data` payload).  The remote Trello
client (`TrelloClient`) and the recursive inflation coroutines
(`cls.get` / `cls.get_many` invoked from `_inflator`) are external
collaborators; they are abstracted as oracle functions passed in as
parameters (`fetch` for `_get_data`, `infl` for the queued inflation
coroutines, `ds` for the delete endpoints).  `asyncio` task scheduling is
modelled sequentially: `asyncio.wait` waits for every task and does not
re-raise exceptions stored in the tasks, which is exactly Python's
behaviour for `yield from asyncio.wait(...)` with no result retrieval.
-/

/-- Python values handled by the engine: strings, ints, bools, `None`,
references to in-memory `TrelloObject` instances (heap indices), datetime
objects (kept abstract as the string they were parsed from, since
`dateutil.parser` is an external collaborator), JSON lists and dicts.
Dicts are association lists in insertion order, mirroring Python dicts. -/
inductive PyVal where
  | none : PyVal
  | str : String → PyVal
  | int : Int → PyVal
  | bool : Bool → PyVal
  | ref : Nat → PyVal
  | datetime : String → PyVal
  | list : List PyVal → PyVal
  | dict : List (String × PyVal) → PyVal

/-- Structural equality on `PyVal`, modelling Python `==` on the fragment
the engine compares (strings, bools, ids, lists, dicts of those).  Python
equalities between distinct constructors used by this code base (e.g.
`"complete" == True`) are all `False`, matching this definition. -/
def PyVal.beq : PyVal → PyVal → Bool
  | .none, .none => true
  | .str a, .str b => a == b
  | .int a, .int b => a == b
  | .bool a, .bool b => a == b
  | .ref a, .ref b => a == b
  | .datetime a, .datetime b => a == b
  | .list as, .list bs => goList as bs
  | .dict as, .dict bs => goDict as bs
  | _, _ => false
where
  goList : List PyVal → List PyVal → Bool
    | [], [] => true
    | a :: as, b :: bs => PyVal.beq a b && goList as bs
    | _, _ => false
  goDict : List (String × PyVal) → List (String × PyVal) → Bool
    | [], [] => true
    | (k, a) :: as, (l, b) :: bs => k == l && PyVal.beq a b && goDict as bs
    | _, _ => false

/-- Is the value a Python `str`? -/
def PyVal.isStr : PyVal → Bool
  | .str _ => true
  | _ => false

/-- Python exceptions raised by the engine.  Constructors carry the
structured content of the corresponding Python message. -/
inductive PyErr where
  /-- `KeyError` (e.g. `del _cache[id_]` on a missing id, `data_or_id['id']`
  on a dict without an id). -/
  | keyError (key : String)
  /-- Generic `ValueError` with its message. -/
  | valueError (msg : String)
  /-- The `ValueError` raised by `TrelloObject.get` when the fetched API
  response fails `is_valid_data`; the Python message interpolates the two
  key lists ("Received incorrect API response ... extra_keys ...
  missing_keys ..."). -/
  | invalidApiData (extra missing : List String)
  /-- The `ValueError` raised by `_state_from_api` for a payload key that is
  not in `API_FIELDS` ("Received field from API that we don't know
  about ..."). -/
  | unknownApiField (key : String)
  /-- `TypeError` (e.g. calling a client method with the wrong number of
  arguments). -/
  | typeError (msg : String)
  /-- `AttributeError` (missing attribute on an instance). -/
  | attributeError (name : String)
  /-- `NotImplementedError`, raised by the delete stubs of Board, Lists and
  Member. -/
  | notImplemented (msg : String)
  /-- The module's own `IsCoroutineError`. -/
  | isCoroutineError

/-- The concrete `TrelloObject` subclasses of `rosetrellis/models.py`. -/
inductive Kind where
  | member | organization | board | lists | card | checklist | checkItem | label
deriving DecidableEq

/-- `TrelloObject.__subclasses__()` in class-definition order
(`models.py`: Member, Organization, Board, Lists, Card, Checklist,
CheckItem, Label). -/
def subclasses : List Kind :=
  [.member, .organization, .board, .lists, .card, .checklist, .checkItem, .label]

/-- Each subclass's `API_FIELDS` tuple, verbatim from `models.py`. -/
def API_FIELDS : Kind → List String
  | .member =>
    ["avatarHash", "avatarSource", "bio", "bioData", "confirmed", "email",
     "fullName", "gravatarHash", "id", "idBoards", "idBoardsPinned",
     "idOrganizations", "idPremOrgsAdmin", "initials", "loginTypes",
     "memberType", "oneTimeMessagesDismissed", "prefs", "premiumFeatures",
     "products", "status", "trophies", "uploadedAvatarHash", "url", "username"]
  | .organization =>
    ["billableMemberCount", "desc", "descData", "displayName", "id",
     "idBoards", "invitations", "invited", "logoHash", "memberships",
     "name", "powerUps", "prefs", "premiumFeatures", "products", "url",
     "website"]
  | .board =>
    ["closed", "dateLastActivity", "dateLastView", "desc", "descData",
     "id", "idOrganization", "invitations", "invited", "labelNames", "memberships",
     "name", "pinned", "powerUps", "prefs", "shortLink", "shortUrl",
     "starred", "subscribed", "url"]
  | .lists =>
    ["closed", "id", "idBoard", "name", "pos", "subscribed"]
  | .card =>
    ["badges", "checkItemStates", "closed", "dateLastActivity", "desc",
     "descData", "due", "email", "id", "idAttachmentCover", "idBoard",
     "idChecklists", "idLabels", "idList", "idMembers", "idMembersVoted",
     "idShort", "labels", "manualCoverAttachment", "name", "pos",
     "shortLink", "shortUrl", "subscribed", "url"]
  | .checklist =>
    ["cards", "checkItems", "id", "idBoard", "idCard", "name", "pos"]
  | .checkItem =>
    ["id", "name", "nameData", "pos", "state"]
  | .label =>
    ["color", "id", "idBoard", "name", "uses"]

/-- `API_SINGLE_KEY` per subclass. -/
def API_SINGLE_KEY : Kind → String
  | .member => "idMember"
  | .organization => "idOrganization"
  | .board => "idBoard"
  | .lists => "idList"
  | .card => "idCard"
  | .checklist => "idChecklist"
  | .checkItem => "idCheckItem"
  | .label => "idLabel"

/-- `STATE_SINGLE_ATTR` per subclass. -/
def STATE_SINGLE_ATTR : Kind → String
  | .member => "member"
  | .organization => "organization"
  | .board => "board"
  | .lists => "list"
  | .card => "card"
  | .checklist => "checklist"
  | .checkItem => "checkitem"
  | .label => "label"

/-- `API_MANY_KEY` per subclass (note CheckItem uses `idCheckItem` for both
its single and many key, verbatim from the source). -/
def API_MANY_KEY : Kind → String
  | .member => "idMembers"
  | .organization => "idOrganizations"
  | .board => "idBoards"
  | .lists => "idLists"
  | .card => "idCards"
  | .checklist => "idChecklists"
  | .checkItem => "idCheckItem"
  | .label => "idLabels"

/-- `STATE_MANY_ATTR` per subclass. -/
def STATE_MANY_ATTR : Kind → String
  | .member => "members"
  | .organization => "organizations"
  | .board => "boards"
  | .lists => "lists"
  | .card => "cards"
  | .checklist => "checklists"
  | .checkItem => "checkitems"
  | .label => "labels"

/-- `API_NESTED_MANY_KEY` per subclass. -/
def API_NESTED_MANY_KEY : Kind → String
  | .member => "members"
  | .organization => "organizations"
  | .board => "boards"
  | .lists => "lists"
  | .card => "cards"
  | .checklist => "checklists"
  | .checkItem => "checkItems"
  | .label => "labels"

/-- `API_NESTED_SINGLE_KEY` per subclass. -/
def API_NESTED_SINGLE_KEY : Kind → String
  | .member => "member"
  | .organization => "organization"
  | .board => "board"
  | .lists => "list"
  | .card => "card"
  | .checklist => "checklist"
  | .checkItem => "checkItem"
  | .label => "label"

/-- `_get_api_many_keys() + _get_api_single_keys()`. -/
def get_api_keys (k : Kind) : List String :=
  [API_MANY_KEY k, API_NESTED_MANY_KEY k, API_SINGLE_KEY k, API_NESTED_SINGLE_KEY k]

/-- `TrelloObject.is_valid_data`: returns the 3-tuple
`(not (extra or missing), extra_api_keys, missing_api_keys)` where the extra
keys are the payload keys not in `API_FIELDS` (in payload order) and the
missing keys are the `API_FIELDS` entries not in the payload (in declaration
order). -/
def is_valid_data (k : Kind) (data : List (String × PyVal)) :
    Bool × List String × List String :=
  let keys := data.map (·.1)
  let extra := keys.filter (fun kk => !(API_FIELDS k).contains kk)
  let missing := (API_FIELDS k).filter (fun f => !keys.contains f)
  (extra.isEmpty && missing.isEmpty, extra, missing)

/-- Truthiness of the 3-tuple returned by `is_valid_data` under Python's
`if`: a tuple is truthy iff it is non-empty, and a 3-tuple is never empty,
so the result is `true` regardless of the validity flag it carries. -/
def tripleTruthy (_t : Bool × List String × List String) : Bool := true

/-- `get_class_for_data`: iterates `TrelloObject.__subclasses__()` and
returns the first subclass for which `if subclass.is_valid_data(data):`
succeeds.  Since `is_valid_data` returns a 3-tuple, the condition tests the
tuple's truthiness (see `tripleTruthy`). -/
def get_class_for_data (data : List (String × PyVal)) : Option Kind :=
  subclasses.find? (fun k => tripleTruthy (is_valid_data k data))

/-- `get_class_for_api_key`: first subclass whose `_get_api_keys()` contains
the key. -/
def get_class_for_api_key (api_key : String) : Option Kind :=
  subclasses.find? (fun k => (get_api_keys k).contains api_key)

/-- The transformer callables that appear as `api_transformer` /
`state_transformer` values in `models.py`.  `get`/`getMany` stand for the
coroutine classmethods `cls.get` / `cls.get_many` (including the
`CheckItem._api_transformers` closures, which call `cls.get_many` with the
checklist id threaded in); `dateFromApi`/`dateFromState` are
`transform_date_from_api`/`transform_date_from_state`; `idsGetter` is
`ids_getter = make_sequence_attrgetter('id')`. -/
inductive TransFn where
  | dateFromApi
  | dateFromState
  | idsGetter
  | get (k : Kind)
  | getMany (k : Kind)

/-- `asyncio.iscoroutinefunction`: true exactly for the `cls.get` /
`cls.get_many` coroutine classmethods. -/
def isCoroutineFn : TransFn → Bool
  | .get _ => true
  | .getMany _ => true
  | _ => false

/-- `StateTransformer`: api key name, state attribute name, and the two
optional transform callables. -/
structure StateTransformer where
  api_name : String
  state_name : String
  api_transformer : Option TransFn
  state_transformer : Option TransFn

/-- `_get_transformer_for_single`: relation transformer for this class's
single key.  Verbatim from the source, it sets `api_transformer=cls.get`
and no `state_transformer`. -/
def get_transformer_for_single (k : Kind) (nested : Bool) : StateTransformer :=
  { api_name := if nested then API_NESTED_SINGLE_KEY k else API_SINGLE_KEY k
    state_name := STATE_SINGLE_ATTR k
    api_transformer := some (.get k)
    state_transformer := Option.none }

/-- `_get_transformer_for_many`: relation transformer for this class's many
key, with `api_transformer=cls.get_many` and `state_transformer=ids_getter`. -/
def get_transformer_for_many (k : Kind) (nested : Bool) : StateTransformer :=
  { api_name := if nested then API_NESTED_MANY_KEY k else API_MANY_KEY k
    state_name := STATE_MANY_ATTR k
    api_transformer := some (.getMany k)
    state_transformer := some .idsGetter }

/-- `_get_relation_transformer_for_api_key`. -/
def get_relation_transformer_for_api_key (k : Kind) (api_key : String) :
    Option StateTransformer :=
  if api_key = API_SINGLE_KEY k ∨ api_key = API_NESTED_SINGLE_KEY k then
    some (get_transformer_for_single k (api_key = API_NESTED_SINGLE_KEY k))
  else if api_key = API_MANY_KEY k ∨ api_key = API_NESTED_MANY_KEY k then
    some (get_transformer_for_many k (api_key = API_NESTED_MANY_KEY k))
  else
    Option.none

/-- Python's case-sensitive substring test `pat in s`, on char lists. -/
def hasSubstringAux (pat : List Char) : List Char → Bool
  | [] => pat.isEmpty
  | c :: cs => pat.isPrefixOf (c :: cs) || hasSubstringAux pat cs

/-- `'date' in fn` for a field name `fn`. -/
def containsDate (fn : String) : Bool :=
  hasSubstringAux "date".toList fn.toList

/-- The loop body of `TrelloObject._make_transformers` for one api key: a
key recognized as some class's relation key gets that class's relation
transformer; otherwise an identity transformer is generated, with the date
transforms attached when the key name contains "date". -/
def generated_entry (fn : String) : StateTransformer :=
  let st :=
    match get_class_for_api_key fn with
    | some klass => get_relation_transformer_for_api_key klass fn
    | Option.none => Option.none
  match st with
  | some st => st
  | Option.none =>
    { api_name := fn
      state_name := fn
      api_transformer := if containsDate fn then some .dateFromApi else Option.none
      state_transformer := if containsDate fn then some .dateFromState else Option.none }

/-- `TrelloObject._make_transformers`: one transformer per api key. -/
def make_transformers : List String → List StateTransformer
  | [] => []
  | fn :: rest => generated_entry fn :: make_transformers rest

/-- `Checklist._get_additional_transformers`: the ad hoc `checkItems`
transformer built from `CheckItem._api_transformers(self.id)`'s
`transform_many` closure (a coroutine that calls `CheckItem.get_many` with
the checklist id threaded in); every other class returns an empty tuple. -/
def get_additional_transformers : Kind → List StateTransformer
  | .checklist =>
    [{ api_name := API_NESTED_MANY_KEY .checkItem
       state_name := STATE_MANY_ATTR .checkItem
       api_transformer := some (.getMany .checkItem)
       state_transformer := Option.none }]
  | _ => []

/-- `_get_transformer_for_api_key`: last match wins across the generated
transformers and then the additional transformers, as in the source's two
sequential loops. -/
def get_transformer_for_api_key (k : Kind) (api_key : String) :
    Option StateTransformer :=
  let t1 := (make_transformers (API_FIELDS k)).find? (fun st => st.api_name == api_key)
  match (get_additional_transformers k).find? (fun st => st.api_name == api_key) with
  | some t => some t
  | Option.none => t1

/-- `_get_transformer_for_state_attr`: same two-loop search keyed on the
state attribute name. -/
def get_transformer_for_state_attr (k : Kind) (attr : String) :
    Option StateTransformer :=
  let t1 := (make_transformers (API_FIELDS k)).find? (fun st => st.state_name == attr)
  match (get_additional_transformers k).find? (fun st => st.state_name == attr) with
  | some t => some t
  | Option.none => t1

/-- An in-memory `TrelloObject` instance: its concrete class, its dynamic
attribute dict (what `setattr`/`getattr`/`delattr` act on), and its
`_raw_data` payload (absent before the first `_state_from_api`). -/
structure Obj where
  kind : Kind
  attrs : List (String × PyVal)
  raw_data : Option (List (String × PyVal))

/-- `getattr(self, name)` as an option (`none` = attribute absent). -/
def Obj.getattr (o : Obj) (name : String) : Option PyVal :=
  (o.attrs.find? (fun kv => kv.1 == name)).map (·.2)

/-- `hasattr(self, name)`. -/
def Obj.hasattr (o : Obj) (name : String) : Bool :=
  (o.getattr name).isSome

/-- `setattr(self, name, v)`: replace the attribute in place, or append it. -/
def Obj.setattr (o : Obj) (name : String) (v : PyVal) : Obj :=
  if o.hasattr name then
    { o with attrs := o.attrs.map (fun kv => if kv.1 == name then (kv.1, v) else kv) }
  else
    { o with attrs := o.attrs ++ [(name, v)] }

/-- `delattr(self, name)`: removes the attribute, raising `AttributeError`
when it is absent. -/
def Obj.delattr (o : Obj) (name : String) : Except PyErr Obj :=
  if o.hasattr name then
    .ok { o with attrs := o.attrs.filter (fun kv => kv.1 != name) }
  else
    .error (.attributeError name)

/-- The process heap: heap reference → live instance. -/
def Heap : Type := Nat → Option Obj

/-- Write one heap cell. -/
def Heap.set (h : Heap) (r : Nat) (o : Obj) : Heap :=
  fun j => if j = r then some o else h j

/-- The module-level `_cache` dict of `rosetrellis/base/obj_cache.py`,
mapping object ids to heap references. -/
def Cache : Type := String → Option Nat

namespace obj_cache

/-- `obj_cache.get`: `_cache.get(id_)`. -/
def get (c : Cache) (id_ : String) : Option Nat := c id_

/-- `obj_cache.set`: `_cache[obj.id] = obj` (overwrite by id). -/
def set (c : Cache) (id_ : String) (r : Nat) : Cache :=
  fun j => if j = id_ then some r else c j

/-- `obj_cache.remove`: `del _cache[id_]`, which raises `KeyError` when the
id is not present. -/
def remove (c : Cache) (id_ : String) : Except PyErr Cache :=
  match c id_ with
  | some _ => .ok (fun j => if j = id_ then Option.none else c j)
  | Option.none => .error (.keyError id_)

end obj_cache

/-- `transform_date_from_api`: `dateutil.parser.parse` is an external
collaborator; the parsed datetime is kept abstract as the string it came
from.  (Its `ValueError` fallback returns `None`; non-string inputs are
outside the fragment exercised by the engine.)  No claim's theorem
evaluates this function. -/
def transform_date_from_api : PyVal → PyVal
  | .str s => .datetime s
  | _ => .none

/-- `transform_date_from_state`: `dt.isoformat()` plus the `+00:00` → `Z`
rewrite, abstracted as the inverse of the abstract parse.  No claim's
theorem evaluates this function. -/
def transform_date_from_state : PyVal → PyVal
  | .datetime s => .str s
  | v => v

/-- `ids_getter`: `[getattr(obj, 'id', None) for obj in seq]`, where
non-object elements yield the `None` default.  Applied to a non-iterable it
raises `TypeError`. -/
def ids_getter (heap : Heap) : PyVal → Except PyErr PyVal
  | .list vs =>
    .ok (.list (vs.map (fun v =>
      match v with
      | .ref n =>
        match heap n with
        | some o => (o.getattr "id").getD .none
        | Option.none => .none
      | _ => .none)))
  | _ => .error (.typeError "ids_getter argument is not iterable")

/-- Result of `_run_transformer_func`: a value, the `IsCoroutineError`
signal that defers the transformer to the task queue, or an exception. -/
inductive RunRes where
  | ok (v : PyVal)
  | isCoro
  | err (e : PyErr)

/-- `TrelloObject._run_transformer_func`.  (The string-named-transformer
branch is dead in the source — no declared transformer is a string — so the
embedded callables are applied directly.)  Raises `IsCoroutineError` for
coroutine functions, returns the value unchanged for `None`, and otherwise
applies the callable. -/
def run_transformer_func (heap : Heap) (value : PyVal) : Option TransFn → RunRes
  | Option.none => .ok value
  | some tf =>
    if isCoroutineFn tf then .isCoro
    else
      match tf with
      | .dateFromApi => .ok (transform_date_from_api value)
      | .dateFromState => .ok (transform_date_from_state value)
      | .idsGetter =>
        match ids_getter heap value with
        | .ok v => .ok v
        | .error e => .err e
      | _ => .isCoro

/-- An inflation oracle: the behaviour of the coroutine transformers
(`cls.get` / `cls.get_many` against the Trello client) that
`_state_from_api` queues and `_inflator` awaits. -/
def InflOracle : Type := TransFn → PyVal → Except PyErr PyVal

/-- A queued inflation: destination attribute, original api value, and the
coroutine transformer (`self._inflator(transformer.state_name, v,
transformer_func)`). -/
structure PendingTask where
  dest : String
  orig : PyVal
  tf : Option TransFn

/-- The synchronous first pass of `_state_from_api`: walk the payload in
order, set attributes directly when `inflate_children` is false, otherwise
validate the key against `API_FIELDS`, look up the field's transformer and
either apply it immediately or queue it when it is a coroutine.  Returns
the error (if any), the partially updated instance, and the queued tasks. -/
def syncPass (heap : Heap) (k : Kind) (inflate : Bool) :
    List (String × PyVal) → Obj → List PendingTask →
    Except PyErr Unit × Obj × List PendingTask
  | [], o, q => (.ok (), o, q)
  | (key, v) :: rest, o, q =>
    if !inflate then
      syncPass heap k inflate rest (o.setattr key v) q
    else if !(API_FIELDS k).contains key then
      (.error (.unknownApiField key), o, q)
    else
      match get_transformer_for_api_key k key with
      | Option.none => (.error (.attributeError "api_transformer"), o, q)
      | some tr =>
        let tf := if PyVal.beq v .none then Option.none else tr.api_transformer
        match run_transformer_func heap v tf with
        | .ok r => syncPass heap k inflate rest (o.setattr tr.state_name r) q
        | .isCoro => syncPass heap k inflate rest o (q ++ [⟨tr.state_name, v, tf⟩])
        | .err e => (.error e, o, q)

/-- The `yield from asyncio.wait(transformations)` join: every queued
`_inflator` task runs to completion and, on success, sets its destination
attribute.  `asyncio.wait` returns the `(done, pending)` sets without
re-raising, and `_state_from_api` never inspects them, so a task's
exception is stored in the task and silently discarded. -/
def runTasks (infl : InflOracle) : List PendingTask → Obj → Obj
  | [], o => o
  | t :: rest, o =>
    match t.tf with
    | some tf =>
      match infl tf t.orig with
      | .ok nv => runTasks infl rest (o.setattr t.dest nv)
      | .error _ => runTasks infl rest o
    | Option.none => runTasks infl rest o

/-- `TrelloObject._state_from_api`: store the payload as `_raw_data`, run
the synchronous pass (an exception there propagates before the tasks are
awaited), then join all queued inflation tasks. -/
def state_from_api_base (infl : InflOracle) (heap : Heap) (o : Obj)
    (api_data : List (String × PyVal)) (inflate : Bool) :
    Except PyErr Unit × Obj :=
  let o1 := { o with raw_data := some api_data }
  match syncPass heap o.kind inflate api_data o1 [] with
  | (.error e, o2, _) => (.error e, o2)
  | (.ok _, o2, q) => (.ok (), runTasks infl q o2)

/-- Remove a key from a payload dict (`del api_data['idLabels']` with its
`KeyError` suppressed). -/
def eraseKey (d : List (String × PyVal)) (key : String) : List (String × PyVal) :=
  d.filter (fun kv => kv.1 != key)

/-- `_state_from_api` with `Card`'s override: when the payload has a nested
`labels` list and inflation is on, the redundant `idLabels` id list is
dropped before the generic materialization. -/
def state_from_api (infl : InflOracle) (heap : Heap) (o : Obj)
    (api_data : List (String × PyVal)) (inflate : Bool) :
    Except PyErr Unit × Obj :=
  match o.kind with
  | .card =>
    let d :=
      if inflate && (api_data.find? (fun kv => kv.1 == "labels")).isSome then
        eraseKey api_data "idLabels"
      else api_data
    state_from_api_base infl heap o d inflate
  | _ => state_from_api_base infl heap o api_data inflate

/-- The process-wide mutable state `get` runs against: the identity cache,
the heap of live instances, and the next fresh heap reference. -/
structure World where
  cache : Cache
  objs : Heap
  nextRef : Nat

/-- The `data_or_id` argument of `TrelloObject.get`. -/
inductive DataOrId where
  | byId (id_ : String)
  | byData (d : List (String × PyVal))

/-- The fetch oracle standing for the subclass `_get_data` classmethods
(one Trello client call each). -/
def FetchOracle : Type := Kind → String → List (String × PyVal)

/-- Splitting `data_or_id` into `id_` and `data`, as the head of
`TrelloObject.get` does.  A dict without an `'id'` key raises `KeyError`
at `data_or_id['id']`; a non-string id value is outside the modelled
fragment (ids are strings throughout the engine). -/
def idAndData : DataOrId → Except PyErr (String × Option (List (String × PyVal)))
  | .byId s => .ok (s, Option.none)
  | .byData d =>
    match d.find? (fun kv => kv.1 == "id") with
    | some (_, .str s) => .ok (s, some d)
    | some _ => .error (.typeError "non-string id")
    | Option.none => .error (.keyError "id")

/-- `cls(tc, id=id_)`: a fresh instance with only the `id` attribute set.
`CheckItem.__init__` additionally demands a `checklist_id` keyword, which
`get` does not pass on this kwarg-free path, so it raises `ValueError`
(the checklist-id-threading closure path lives behind the inflation
oracle). -/
def newObj (k : Kind) (id_ : String) : Except PyErr Obj :=
  match k with
  | .checkItem => .error (.valueError "Must provide checklist id to CheckItem")
  | _ => .ok { kind := k, attrs := [("id", .str id_)], raw_data := Option.none }

/-- `TrelloObject.get`.  Returns the instance's heap reference together
with the world as mutated up to the point of return or failure (an
exception after `obj_cache.set` leaves the new entry cached, exactly as in
the source).  Branches, verbatim from the source: cache miss with no data
fetches, validates with `is_valid_data`, constructs, caches, materializes;
cache miss with inline data constructs, caches, materializes without
validation; cache hit with inline data re-materializes the cached instance
in place; cache hit with a bare id falls through and returns the cached
instance untouched. -/
def TrelloObject.get (k : Kind) (fetch : FetchOracle) (infl : InflOracle)
    (doi : DataOrId) (inflate : Bool) (w : World) : Except PyErr Nat × World :=
  match idAndData doi with
  | .error e => (.error e, w)
  | .ok (id_, data) =>
    match obj_cache.get w.cache id_, data with
    | Option.none, Option.none =>
      let resp := fetch k id_
      match is_valid_data k resp with
      | (false, extra, missing) => (.error (.invalidApiData extra missing), w)
      | (true, _, _) =>
        match newObj k id_ with
        | .error e => (.error e, w)
        | .ok o =>
          let r := w.nextRef
          let w1 : World :=
            { cache := obj_cache.set w.cache id_ r
              objs := w.objs.set r o
              nextRef := r + 1 }
          let (res, o1) := state_from_api infl w1.objs o resp inflate
          let w2 := { w1 with objs := w1.objs.set r o1 }
          match res with
          | .ok _ => (.ok r, w2)
          | .error e => (.error e, w2)
    | Option.none, some d =>
      match newObj k id_ with
      | .error e => (.error e, w)
      | .ok o =>
        let r := w.nextRef
        let w1 : World :=
          { cache := obj_cache.set w.cache id_ r
            objs := w.objs.set r o
            nextRef := r + 1 }
        let (res, o1) := state_from_api infl w1.objs o d inflate
        let w2 := { w1 with objs := w1.objs.set r o1 }
        match res with
        | .ok _ => (.ok r, w2)
        | .error e => (.error e, w2)
    | some r, some d =>
      match w.objs r with
      | Option.none => (.error (.attributeError "dangling cache entry"), w)
      | some o =>
        let (res, o1) := state_from_api infl w.objs o d inflate
        let w2 := { w with objs := w.objs.set r o1 }
        match res with
        | .ok _ => (.ok r, w2)
        | .error e => (.error e, w2)
    | some r, Option.none => (.ok r, w)

/-- One call in a sequence of `get` operations (any subclass, bare id or
inline payload, either inflation mode). -/
inductive GetCall where
  | call (k : Kind) (doi : DataOrId) (inflate : Bool)

/-- Run a sequence of `get` calls, threading the world through whether each
call succeeds or raises (exceptions propagate to each caller; the shared
cache and heap keep whatever the failed call had already done). -/
def runGets (fetch : FetchOracle) (infl : InflOracle) :
    List GetCall → World → World
  | [], w => w
  | .call k doi inflate :: rest, w =>
    runGets fetch infl rest (TrelloObject.get k fetch infl doi inflate w).2

/-- The delete endpoints of the Trello client (`tc.delete_organization`
etc.), abstracted as an oracle from kind and id argument to response. -/
def DsOracle : Type := Kind → PyVal → Except PyErr PyVal

/-- `self.id` as read by `delete`: the engine's ids are strings. -/
def selfId (o : Obj) : Except PyErr String :=
  match o.getattr "id" with
  | some (.str s) => .ok s
  | _ => .error (.typeError "non-string id attribute")

/-- `_delete_from_api` per subclass, verbatim: Board, Lists and Member
raise `NotImplementedError` unconditionally; Organization, Card and
Checklist call the client's delete endpoint with `self.id`; CheckItem
evaluates `self.checklist.id` (raising `AttributeError` when the attribute
is absent) and then calls `tc.delete_checkitem(self.id, self.checklist.id)`,
which raises `TypeError` because `delete_checkitem` takes three positional
arguments; Label calls `tc.delete_label()` with no arguments, which raises
`TypeError` because `delete_label` requires a label id. -/
def delete_from_api (ds : DsOracle) (heap : Heap) (o : Obj) :
    Except PyErr PyVal :=
  match o.kind with
  | .board => .error (.notImplemented
      "Trello does not permit deleting of boards.  Try Board.close()")
  | .lists => .error (.notImplemented
      "Trello does not permit list deletion.  Try closing the list instead.")
  | .member => .error (.notImplemented
      "Trello does not permit deleting of members.")
  | .organization =>
    match selfId o with
    | .error e => .error e
    | .ok i => ds .organization (.str i)
  | .card =>
    match selfId o with
    | .error e => .error e
    | .ok i => ds .card (.str i)
  | .checklist =>
    match selfId o with
    | .error e => .error e
    | .ok i => ds .checklist (.str i)
  | .checkItem =>
    match selfId o with
    | .error e => .error e
    | .ok _ =>
    match o.getattr "checklist" with
    | some (.ref n) =>
      match heap n with
      | some cl =>
        match cl.getattr "id" with
        | some _ => .error (.typeError
            "delete_checkitem() missing 1 required positional argument")
        | Option.none => .error (.attributeError "id")
      | Option.none => .error (.attributeError "checklist")
    | some _ => .error (.attributeError "id")
    | Option.none => .error (.attributeError "checklist")
  | .label => .error (.typeError
      "delete_label() missing 1 required positional argument")

/-- The `for k, v in self._raw_data.items(): delattr(self, k)` loop of
`delete`, stopping at the first `AttributeError`. -/
def delRawAttrs (o : Obj) : List (String × PyVal) → Except PyErr Obj × Obj
  | [] => (.ok o, o)
  | (key, _) :: rest =>
    match o.delattr key with
    | .ok o1 => delRawAttrs o1 rest
    | .error e => (.error e, o)

/-- `TrelloObject.delete`: call the subclass delete endpoint, remove the id
from the identity cache, delete every attribute named by a `_raw_data` key,
then delete `_raw_data` itself.  Failures leave the already-performed
mutations in place, as in the source. -/
def TrelloObject.delete (ds : DsOracle) (w : World) (r : Nat) :
    Except PyErr PyVal × World :=
  match w.objs r with
  | Option.none => (.error (.attributeError "dangling reference"), w)
  | some o =>
    match delete_from_api ds w.objs o with
    | .error e => (.error e, w)
    | .ok resp =>
      match selfId o with
      | .error e => (.error e, w)
      | .ok sid =>
        match obj_cache.remove w.cache sid with
        | .error e => (.error e, w)
        | .ok c1 =>
          let w1 := { w with cache := c1 }
          match o.raw_data with
          | Option.none => (.error (.attributeError "_raw_data"), w1)
          | some rd =>
            match delRawAttrs o rd with
            | (.ok o1, _) =>
              let o2 := { o1 with raw_data := Option.none }
              (.ok resp, { w1 with objs := w1.objs.set r o2 })
            | (.error e, o1) =>
              (.error e, { w1 with objs := w1.objs.set r o1 })

/-- The `(state-attribute, api-key)` change-tracking pairs passed to
`_changes_from_raw_data` by each subclass's `_get_api_update_from_state`. -/
def update_pairs : Kind → List (String × String)
  | .member =>
    [("fullName", "fullName"), ("initials", "initials"), ("username", "username"),
     ("bio", "bio"), ("avatarSource", "avatarSource")]
  | .organization =>
    [("name", "name"), ("displayName", "displayName"), ("desc", "desc"),
     ("website", "website")]
  | .board =>
    [("name", "name"), ("desc", "desc"), ("closed", "closed"),
     ("organization", "idOrganization")]
  | .lists =>
    [("name", "name"), ("board", "idBoard"), ("pos", "pos"),
     ("subscribed", "subscribed")]
  | .card =>
    [("name", "name"), ("desc", "desc"), ("closed", "closed"), ("pos", "pos"),
     ("list", "idList"), ("board", "idBoard"), ("due", "due"),
     ("subscribed", "subscribed")]
  | .checklist =>
    [("name", "name"), ("pos", "pos"), ("card", "idCard")]
  | .checkItem =>
    [("name", "name"), ("pos", "pos"), ("state", "state")]
  | .label =>
    [("name", "name"), ("color", "color")]

/-- The loop body of `TrelloObject._changes_from_raw_data` over the given
pairs: skip a pair when the attribute is absent (`hasattr` short-circuits
before `_raw_data` is touched) or the key is not in `_raw_data`; otherwise
push the attribute's current value through the pair's `state_transformer`
and record it under the api key when it differs from the raw value. -/
def changesLoop (heap : Heap) (o : Obj) (rd : Option (List (String × PyVal))) :
    List (String × String) → List (String × PyVal) →
    Except PyErr (List (String × PyVal))
  | [], changes => .ok changes
  | (attr, key) :: rest, changes =>
    match o.getattr attr with
    | Option.none => changesLoop heap o rd rest changes
    | some value =>
      match rd with
      | Option.none => .error (.attributeError "_raw_data")
      | some raw =>
        match raw.find? (fun kv => kv.1 == key) with
        | Option.none => changesLoop heap o rd rest changes
        | some (_, rawValue) =>
          match get_transformer_for_state_attr o.kind attr with
          | Option.none => .error (.attributeError "state_transformer")
          | some st =>
            match run_transformer_func heap value st.state_transformer with
            | .ok v =>
              if PyVal.beq v rawValue then changesLoop heap o rd rest changes
              else changesLoop heap o rd rest (changes ++ [(key, v)])
            | .isCoro => .error .isCoroutineError
            | .err e => .error e

/-- `TrelloObject._changes_from_raw_data`. -/
def changes_from_raw_data (heap : Heap) (o : Obj)
    (pairs : List (String × String)) : Except PyErr (List (String × PyVal)) :=
  changesLoop heap o o.raw_data pairs []

/-- Lexicographic `≤` on strings by code point, which is what Python's
`sorted` uses on `str` (decided through the character lists, since that
order is kernel-computable). -/
def strLe (a b : String) : Bool := decide (a.toList ≤ b.toList)

/-- Python's `sorted` on a list of strings. -/
def sortStrings (l : List String) : List String :=
  l.insertionSort (fun a b => strLe a b = true)

/-- `Card.label_colors`: `[l.color for l in self.labels]`.  Raises
`AttributeError` when `labels` is absent, and requires each label object's
`color` to be a string (Python would raise comparing anything else in
`sorted`). -/
def label_colors (heap : Heap) (o : Obj) : Except PyErr (List String) :=
  match o.getattr "labels" with
  | some (.list vs) =>
    vs.mapM (fun v =>
      match v with
      | .ref n =>
        match heap n with
        | some lab =>
          match lab.getattr "color" with
          | some (.str c) => .ok c
          | some _ => .error (.typeError "non-string label color")
          | Option.none => .error (.attributeError "color")
        | Option.none => .error (.attributeError "color")
      | _ => .error (.attributeError "color"))
  | some _ => .error (.typeError "labels is not iterable")
  | Option.none => .error (.attributeError "labels")

/-- Extract `[label['color'] for label in raw labels]` from the raw payload's
nested label dicts. -/
def rawLabelColors (vs : List PyVal) : Except PyErr (List String) :=
  vs.mapM (fun v =>
    match v with
    | .dict kvs =>
      match kvs.find? (fun kv => kv.1 == "color") with
      | some (_, .str c) => .ok c
      | some _ => .error (.typeError "non-string label color")
      | Option.none => .error (.keyError "color")
    | _ => .error (.typeError "raw label is not a dict"))

/-- The comparison at the heart of `Card._postable_labels`: sort both color
lists, and return the comma-joined sorted state colors when they differ. -/
def postable_core (rawColors stateColors : List String) : Option String :=
  if sortStrings rawColors ≠ sortStrings stateColors then
    some (String.intercalate "," (sortStrings stateColors))
  else
    Option.none

/-- `Card._postable_labels`: `None` unless `'labels' in self._raw_data` and
`self.label_colors` is non-empty; otherwise compare the sorted raw label
colors with the sorted in-memory label colors and return the joined state
colors when they differ. -/
def postable_labels (heap : Heap) (o : Obj) : Except PyErr (Option String) :=
  match o.raw_data with
  | Option.none => .error (.attributeError "_raw_data")
  | some rd =>
    match rd.find? (fun kv => kv.1 == "labels") with
    | Option.none => .ok Option.none
    | some (_, rawLabels) => do
      let cs ← label_colors heap o
      if cs.isEmpty then
        pure Option.none
      else
        match rawLabels with
        | .list vs => do
          let rawColors ← rawLabelColors vs
          pure (postable_core rawColors cs)
        | _ => .error (.typeError "raw labels is not iterable")

/-- `_get_api_update_from_state` per subclass: the generic
`_changes_from_raw_data` over the subclass's pairs; `Card` appends the
`labels` entry when `_postable_labels` is truthy (a non-empty string);
`Board` additionally calls `self.prefs.get_api_update_from_state()`, but
`prefs` is materialized as the raw dict (no transformer builds a
`BoardPrefs`) and neither `dict` nor `BoardPrefs` defines that method, so
the call raises `AttributeError` (when `prefs` is absent, reading the
attribute already raises). -/
def get_api_update_from_state (heap : Heap) (o : Obj) :
    Except PyErr (List (String × PyVal)) :=
  match o.kind with
  | .card => do
    let changes ← changes_from_raw_data heap o (update_pairs .card)
    let pl ← postable_labels heap o
    match pl with
    | some s => if s.isEmpty then pure changes else pure (changes ++ [("labels", .str s)])
    | Option.none => pure changes
  | .board => do
    let _ ← changes_from_raw_data heap o (update_pairs .board)
    .error (.attributeError "get_api_update_from_state")
  | k => changes_from_raw_data heap o (update_pairs k)

/-- The `CheckItem.complete` property getter: maps the raw `state` field's
`"complete"`/`"true"` to `True` and `"incomplete"`/`"false"` to `False`,
passes any other state value through, and returns `None` when there is no
`state` attribute. -/
def complete_get (o : Obj) : PyVal :=
  match o.getattr "state" with
  | Option.none => .none
  | some st =>
    if PyVal.beq st (.str "complete") || PyVal.beq st (.str "true") then .bool true
    else if PyVal.beq st (.str "incomplete") || PyVal.beq st (.str "false") then .bool false
    else st

/-- The value the `CheckItem.complete` property setter writes to
`self.state`: the Python booleans `False` / `True` (`self.state = False`
or `self.state = True`). -/
def complete_set_value (value : PyVal) : PyVal :=
  if PyVal.beq value (.str "incomplete") || PyVal.beq value (.str "false")
      || PyVal.beq value (.bool false) then
    .bool false
  else
    .bool true

/-- The `complete` setter applied to an instance: writes
`complete_set_value` to the `state` attribute. -/
def complete_set (o : Obj) (value : PyVal) : Obj :=
  o.setattr "state" (complete_set_value value)

/-- Helper: Python's `sorted` of strings is invariant under permutation of
its input (sorting by a total, transitive, antisymmetric order). -/
theorem sortStrings_perm_eq (l₁ l₂ : List String) (h : l₁.Perm l₂) :
    sortStrings l₁ = sortStrings l₂ := by
  haveI hA : IsAntisymm String (fun a b => strLe a b = true) := by
    constructor
    intro a b h1 h2
    have h3 : a.toList = b.toList :=
      le_antisymm (of_decide_eq_true h1) (of_decide_eq_true h2)
    calc a = String.mk a.toList := rfl
    _ = String.mk b.toList := by rw [h3]
    _ = b := rfl
  haveI hT : IsTotal String (fun a b => strLe a b = true) := by
    constructor
    intro a b
    rcases le_total a.toList b.toList with h | h
    · exact Or.inl (decide_eq_true h)
    · exact Or.inr (decide_eq_true h)
  haveI hTr : IsTrans String (fun a b => strLe a b = true) := by
    constructor
    intro a b c h1 h2
    exact decide_eq_true (le_trans (of_decide_eq_true h1) (of_decide_eq_true h2))
  apply List.eq_of_perm_of_sorted (r := fun a b => strLe a b = true)
  · exact ((List.perm_insertionSort _ l₁).trans h).trans (List.perm_insertionSort _ l₂).symm
  · exact List.sorted_insertionSort _ _
  · exact List.sorted_insertionSort _ _

/-- C10: `obj_cache.remove` on an id that is not in the cache raises
`KeyError` (`del _cache[id_]`) — neither a silent no-op nor a dedicated
NotFoundError — and a successful removal deletes exactly that entry: the
removed id no longer resolves, and every other id resolves exactly as
before. -/
theorem c10_cache_remove (c : Cache) (id_ : String) :
    (obj_cache.get c id_ = Option.none →
      obj_cache.remove c id_ = .error (.keyError id_)) ∧
    (∀ c1, obj_cache.remove c id_ = .ok c1 →
      obj_cache.get c1 id_ = Option.none ∧
      ∀ j, j ≠ id_ → obj_cache.get c1 j = obj_cache.get c j) := by
  constructor
  · intro h
    have h' : c id_ = Option.none := h
    simp [obj_cache.remove, h']
  · intro c1 h
    cases hc : c id_ with
    | none => simp [obj_cache.remove, hc] at h
    | some r =>
      simp only [obj_cache.remove, hc] at h
      cases h
      constructor
      · simp [obj_cache.get]
      · intro j hj
        simp [obj_cache.get, hj]

/-- Witness for C10 at a concrete two-entry cache. -/
theorem c10_cache_remove_witness :
    obj_cache.remove (fun _ => Option.none) "x" = .error (.keyError "x") ∧
    ∃ c1, obj_cache.remove
        (fun j => if j = "a" then some 0 else if j = "b" then some 1 else Option.none)
        "a" = .ok c1 ∧
      obj_cache.get c1 "a" = Option.none ∧ obj_cache.get c1 "b" = some 1 := by
  refine ⟨(c10_cache_remove (fun _ => Option.none) "x").1 rfl, ?_⟩
  refine ⟨fun j => if j = "a" then Option.none
    else if j = "a" then some 0 else if j = "b" then some 1 else Option.none, rfl, ?_⟩
  have h := (c10_cache_remove
    (fun j => if j = "a" then some 0 else if j = "b" then some 1 else Option.none)
    "a").2 _ rfl
  refine ⟨h.1, ?_⟩
  have hb := h.2 "b" (by decide)
  exact hb.trans (by decide)

/-- C8 counterexample: the claim says assigning a boolean to `complete`
writes the value back to the `state` field *as a string*; in the source the
setter executes `self.state = True` / `self.state = False`, writing a
boolean.  Assigning `True` stores the boolean `True`, not a string. -/
theorem c8_counterexample :
    complete_set_value (.bool true) = .bool true ∧
    (complete_set_value (.bool true)).isStr = false ∧
    complete_set (⟨.checkItem, [("state", .str "incomplete")], Option.none⟩)
        (.bool true) =
      ⟨.checkItem, [("state", .bool true)], Option.none⟩ := by
  refine ⟨rfl, rfl, rfl⟩

/-- C8 (amended): reading `complete` maps a raw `state` of `"complete"` or
`"true"` to `True`, `"incomplete"` or `"false"` to `False`, passes any
other state value through unchanged, and returns `None` when `state` is
absent; assigning a boolean writes the corresponding *boolean* (not a
string) back to `state`: `False` (like the strings `"incomplete"` and
`"false"`) stores `False`, anything else stores `True`. -/
theorem c8_complete_property :
    (∀ o : Obj, o.getattr "state" = some (.str "complete") → complete_get o = .bool true) ∧
    (∀ o : Obj, o.getattr "state" = some (.str "true") → complete_get o = .bool true) ∧
    (∀ o : Obj, o.getattr "state" = some (.str "incomplete") → complete_get o = .bool false) ∧
    (∀ o : Obj, o.getattr "state" = some (.str "false") → complete_get o = .bool false) ∧
    (∀ (o : Obj) (st : PyVal), o.getattr "state" = some st →
      PyVal.beq st (.str "complete") = false → PyVal.beq st (.str "true") = false →
      PyVal.beq st (.str "incomplete") = false → PyVal.beq st (.str "false") = false →
      complete_get o = st) ∧
    (∀ o : Obj, o.getattr "state" = Option.none → complete_get o = .none) ∧
    (∀ v : PyVal, (complete_set_value v).isStr = false) ∧
    complete_set_value (.bool false) = .bool false ∧
    complete_set_value (.bool true) = .bool true := by
  refine ⟨?_, ?_, ?_, ?_, ?_, ?_, ?_, rfl, rfl⟩
  · intro o h; unfold complete_get; rw [h]; rfl
  · intro o h; unfold complete_get; rw [h]; rfl
  · intro o h; unfold complete_get; rw [h]; rfl
  · intro o h; unfold complete_get; rw [h]; rfl
  · intro o st h h1 h2 h3 h4
    unfold complete_get
    rw [h]
    simp [h1, h2, h3, h4]
  · intro o h; unfold complete_get; rw [h]
  · intro v
    unfold complete_set_value
    split <;> rfl

/-- Witness for C8 at concrete check items: a `state` of `"complete"` reads
as `True`, and a non-keyword state value (`5`) passes through. -/
theorem c8_complete_property_witness :
    complete_get ⟨.checkItem, [("state", .str "complete")], Option.none⟩ = .bool true ∧
    complete_get ⟨.checkItem, [("state", .int 5)], Option.none⟩ = .int 5 := by
  constructor
  · exact c8_complete_property.1 _ rfl
  · exact c8_complete_property.2.2.2.2.1 _ (.int 5) rfl rfl rfl rfl rfl

/-- C4 (code bug): `get_class_for_data` is supposed to pick the unique
subclass whose field set matches the payload, but its condition
`if subclass.is_valid_data(data):` tests the truthiness of the returned
3-tuple, which is always true, so the first subclass (`Member`) is returned
for *every* payload.  The payload below matches exactly `Label`'s declared
field set (and no other subclass's), yet resolution yields `Member`; an
empty payload, matching no subclass, also yields `Member` instead of
failing. -/
theorem c4_resolver_code_bug :
    (subclasses.filter (fun k =>
      (is_valid_data k
        [("color", PyVal.str "red"), ("id", PyVal.str "x"), ("idBoard", PyVal.str "b"),
         ("name", PyVal.str "n"), ("uses", PyVal.int 0)]).1)) = [Kind.label] ∧
    get_class_for_data
        [("color", PyVal.str "red"), ("id", PyVal.str "x"), ("idBoard", PyVal.str "b"),
         ("name", PyVal.str "n"), ("uses", PyVal.int 0)] = some Kind.member ∧
    get_class_for_data [] = some Kind.member := by
  refine ⟨rfl, rfl, rfl⟩

/-- C2 counterexample: materializing a `Lists` payload whose single queued
inflation task (`Board.get` for `idBoard`) fails does *not* fail the
materialize call: `_state_from_api` returns normally (`.ok`), the failure
is not reported, and the `board` attribute is simply left unset. -/
theorem c2_counterexample :
    (state_from_api (fun _ _ => .error (.valueError "boom")) (fun _ => Option.none)
        ⟨.lists, [("id", .str "l1")], Option.none⟩
        [("id", .str "l1"), ("idBoard", .str "b1")] true).1 = .ok () ∧
    ((state_from_api (fun _ _ => .error (.valueError "boom")) (fun _ => Option.none)
        ⟨.lists, [("id", .str "l1")], Option.none⟩
        [("id", .str "l1"), ("idBoard", .str "b1")] true).2).getattr "board"
      = Option.none := by
  refine ⟨rfl, rfl⟩

/-- Helper for C2: the success or failure of `_state_from_api` is decided
entirely by its synchronous pass; the `asyncio.wait` join never re-raises. -/
theorem state_from_api_base_fst_indep (infl1 infl2 : InflOracle) (heap : Heap)
    (o : Obj) (d : List (String × PyVal)) (inflate : Bool) :
    (state_from_api_base infl1 heap o d inflate).1 =
      (state_from_api_base infl2 heap o d inflate).1 := by
  unfold state_from_api_base
  rcases hs : syncPass heap o.kind inflate d { o with raw_data := some d } [] with ⟨res, o2, q⟩
  cases res <;> simp [hs]

/-- C2 (amended): if a concurrently run relationship-inflation task fails
during materialize, the materialize call does *not* fail and does not
report the failure: `_state_from_api` joins the tasks with `asyncio.wait`,
whose stored task exceptions are never retrieved, so the call's outcome is
independent of the inflation outcomes (a failed task merely leaves its
destination attribute unset). -/
theorem c2_inflation_failures_swallowed (infl1 infl2 : InflOracle) (heap : Heap)
    (o : Obj) (d : List (String × PyVal)) (inflate : Bool) :
    (state_from_api infl1 heap o d inflate).1 =
      (state_from_api infl2 heap o d inflate).1 := by
  rcases o with ⟨k, attrs, rd⟩
  cases k <;>
    simp only [state_from_api] <;>
    exact state_from_api_base_fst_indep infl1 infl2 heap _ _ _

/-- C7: a Card's outgoing label diff compares *sorted* label-color lists,
so it is order-independent (first conjunct: permuting the in-memory color
list never changes the computed diff entry); concretely, a card whose raw
payload has labels colored red and blue and whose in-memory label objects
are colored blue, red produces no `labels` entry in the update diff, while
changing the in-memory labels to a single green one produces
`labels = "green"` (the sorted colors joined with commas). -/
theorem c7_label_diff_by_color :
    (∀ (rawColors s1 s2 : List String), s1.Perm s2 →
      postable_core rawColors s1 = postable_core rawColors s2) ∧
    get_api_update_from_state
      (fun n => if n = 1 then some ⟨.label, [("color", .str "blue")], Option.none⟩
        else if n = 2 then some ⟨.label, [("color", .str "red")], Option.none⟩
        else Option.none)
      ⟨.card, [("id", .str "c1"), ("labels", .list [.ref 1, .ref 2])],
        some [("id", .str "c1"),
              ("labels", .list [.dict [("color", .str "red")], .dict [("color", .str "blue")]])]⟩
      = .ok [] ∧
    get_api_update_from_state
      (fun n => if n = 3 then some ⟨.label, [("color", .str "green")], Option.none⟩
        else Option.none)
      ⟨.card, [("id", .str "c1"), ("labels", .list [.ref 3])],
        some [("id", .str "c1"),
              ("labels", .list [.dict [("color", .str "red")], .dict [("color", .str "blue")]])]⟩
      = .ok [("labels", .str "green")] := by
  refine ⟨?_, rfl, rfl⟩
  intro rawColors s1 s2 h
  unfold postable_core
  rw [sortStrings_perm_eq s1 s2 h]

/-- Witness for C7: the order-independence conjunct applied to the concrete
permutation `["blue", "red"] ~ ["red", "blue"]`. -/
theorem c7_label_diff_by_color_witness :
    (["blue", "red"] : List String).Perm ["red", "blue"] ∧
    postable_core ["red", "blue"] ["blue", "red"] =
      postable_core ["red", "blue"] ["red", "blue"] := by
  have hp : (["blue", "red"] : List String).Perm ["red", "blue"] := by
    exact List.Perm.swap _ _ _
  exact ⟨hp, c7_label_diff_by_color.1 ["red", "blue"] _ _ hp⟩

/-- C5 (code bug): immediately after `get(payload)` with inflation the
update diff is *not* empty.  `_get_transformer_for_single` builds the
single-relation transformer with no `state_transformer` (third conjunct;
the `id_getter` defined at the top of `models.py` is never used), so
`_changes_from_raw_data` compares the inflated related *object* directly
against the raw id string and always reports it as a change: materializing
a `Lists` payload with `idBoard = "b1"` and then calling
`_get_api_update_from_state` yields the non-empty diff
`idBoard ↦ <board object>`. -/
theorem c5_roundtrip_code_bug :
    (TrelloObject.get .lists (fun _ _ => []) (fun _ _ => .ok (.ref 7))
      (.byData [("closed", .bool false), ("id", .str "l1"), ("idBoard", .str "b1"),
                ("name", .str "todo"), ("pos", .int 1), ("subscribed", .bool false)]) true
      ⟨fun _ => Option.none, fun _ => Option.none, 0⟩).1 = .ok 0 ∧
    ((TrelloObject.get .lists (fun _ _ => []) (fun _ _ => .ok (.ref 7))
      (.byData [("closed", .bool false), ("id", .str "l1"), ("idBoard", .str "b1"),
                ("name", .str "todo"), ("pos", .int 1), ("subscribed", .bool false)]) true
      ⟨fun _ => Option.none, fun _ => Option.none, 0⟩).2.objs 0).map
        (fun o => get_api_update_from_state
          (TrelloObject.get .lists (fun _ _ => []) (fun _ _ => .ok (.ref 7))
            (.byData [("closed", .bool false), ("id", .str "l1"), ("idBoard", .str "b1"),
                      ("name", .str "todo"), ("pos", .int 1), ("subscribed", .bool false)]) true
            ⟨fun _ => Option.none, fun _ => Option.none, 0⟩).2.objs o)
      = some (.ok [("idBoard", .ref 7)]) ∧
    (get_transformer_for_state_attr .lists "board").map (fun st => st.state_transformer)
      = some Option.none := by
  refine ⟨rfl, rfl, rfl⟩

/-- C9 (code bug): `delete` can succeed and still leave a payload-derived
attribute behind, contradicting its own docstring ("removes all data from
self") and the acknowledging TODO in its body.  An `Organization` payload
is materialized once with `inflate_children=False` (setting raw-key
attributes, including `idBoards`) and re-materialized from the cache with
inflation (setting the relation attribute `boards`); `delete` then
succeeds — it deletes only the attributes named by `_raw_data` keys and
removes the id from the cache — but the payload-derived `boards` attribute
survives on the instance. -/
theorem c9_delete_leaves_attributes :
    (TrelloObject.delete (fun _ _ => .ok .none)
      (runGets (fun _ _ => []) (fun _ _ => .ok (.list [.ref 5]))
        [.call .organization (.byData [("id", .str "o1"), ("idBoards", .list [.str "b1"])]) false,
         .call .organization (.byData [("id", .str "o1"), ("idBoards", .list [.str "b1"])]) true]
        ⟨fun _ => Option.none, fun _ => Option.none, 0⟩) 0).1 = .ok .none ∧
    obj_cache.get
      (TrelloObject.delete (fun _ _ => .ok .none)
        (runGets (fun _ _ => []) (fun _ _ => .ok (.list [.ref 5]))
          [.call .organization (.byData [("id", .str "o1"), ("idBoards", .list [.str "b1"])]) false,
           .call .organization (.byData [("id", .str "o1"), ("idBoards", .list [.str "b1"])]) true]
          ⟨fun _ => Option.none, fun _ => Option.none, 0⟩) 0).2.cache "o1" = Option.none ∧
    ((TrelloObject.delete (fun _ _ => .ok .none)
      (runGets (fun _ _ => []) (fun _ _ => .ok (.list [.ref 5]))
        [.call .organization (.byData [("id", .str "o1"), ("idBoards", .list [.str "b1"])]) false,
         .call .organization (.byData [("id", .str "o1"), ("idBoards", .list [.str "b1"])]) true]
        ⟨fun _ => Option.none, fun _ => Option.none, 0⟩) 0).2.objs 0).map
      (fun o => o.getattr "boards")
      = some (some (.list [.ref 5])) := by
  refine ⟨rfl, rfl, rfl⟩

/-- Helper: `self.id` can only fail with the unmodelled-fragment
`TypeError`, never with `NotImplementedError`. -/
theorem selfId_error_shape (o : Obj) (e : PyErr) (h : selfId o = .error e) :
    e = .typeError "non-string id attribute" := by
  unfold selfId at h
  rcases hg : o.getattr "id" with _ | v
  · rw [hg] at h
    cases h
    rfl
  · rw [hg] at h
    cases v <;> cases h <;> rfl

/-- C6: `delete()` on a Board, Lists or Member instance always fails with
the structural `NotImplementedError` rejection, whatever the instance state
or the client, and leaves the world untouched; for the five other kinds
(Organization, Card, Checklist, CheckItem, Label) `_delete_from_api` never
produces that rejection, provided the client's delete endpoints (external
collaborators) do not raise `NotImplementedError` themselves. -/
theorem c6_delete_restrictions :
    (∀ (ds : DsOracle) (w : World) (r : Nat) (o : Obj), w.objs r = some o →
      (o.kind = .board ∨ o.kind = .lists ∨ o.kind = .member) →
      ∃ m, TrelloObject.delete ds w r = (.error (.notImplemented m), w)) ∧
    (∀ (ds : DsOracle) (heap : Heap) (o : Obj),
      (o.kind = .organization ∨ o.kind = .card ∨ o.kind = .checklist ∨
       o.kind = .checkItem ∨ o.kind = .label) →
      (∀ k v m, ds k v ≠ .error (.notImplemented m)) →
      ∀ m, delete_from_api ds heap o ≠ .error (.notImplemented m)) := by
  constructor
  · intro ds w r o hw hk
    rcases hk with h | h | h
    · refine ⟨"Trello does not permit deleting of boards.  Try Board.close()", ?_⟩
      simp only [TrelloObject.delete, hw, delete_from_api, h]
    · refine ⟨"Trello does not permit list deletion.  Try closing the list instead.", ?_⟩
      simp only [TrelloObject.delete, hw, delete_from_api, h]
    · refine ⟨"Trello does not permit deleting of members.", ?_⟩
      simp only [TrelloObject.delete, hw, delete_from_api, h]
  · intro ds heap o hk hds m hc
    rcases hk with h | h | h | h | h
    · simp only [delete_from_api, h] at hc
      rcases hsi : selfId o with e | i
      · rw [hsi] at hc
        rw [selfId_error_shape o e hsi] at hc
        cases hc
      · rw [hsi] at hc
        exact hds _ _ m hc
    · simp only [delete_from_api, h] at hc
      rcases hsi : selfId o with e | i
      · rw [hsi] at hc
        rw [selfId_error_shape o e hsi] at hc
        cases hc
      · rw [hsi] at hc
        exact hds _ _ m hc
    · simp only [delete_from_api, h] at hc
      rcases hsi : selfId o with e | i
      · rw [hsi] at hc
        rw [selfId_error_shape o e hsi] at hc
        cases hc
      · rw [hsi] at hc
        exact hds _ _ m hc
    · simp only [delete_from_api, h] at hc
      rcases hsi : selfId o with e | i
      · rw [hsi] at hc
        rw [selfId_error_shape o e hsi] at hc
        cases hc
      · rw [hsi] at hc
        dsimp only at hc
        rcases hg : o.getattr "checklist" with _ | v
        · rw [hg] at hc
          cases hc
        · rw [hg] at hc
          cases v <;> dsimp only at hc <;> try cases hc
          rename_i n
          rcases hh : heap n with _ | cl
          · rw [hh] at hc
            cases hc
          · rw [hh] at hc
            dsimp only at hc
            rcases hcid : cl.getattr "id" with _ | w
            · rw [hcid] at hc
              cases hc
            · rw [hcid] at hc
              cases hc
    · simp only [delete_from_api, h] at hc
      cases hc

/-- Witness for C6: deleting a concrete `Board` instance fails with the
`NotImplementedError` rejection and changes nothing, while
`_delete_from_api` on a concrete `Organization` instance (with a client
that never raises `NotImplementedError`) is not that rejection. -/
theorem c6_delete_restrictions_witness :
    (∃ m, TrelloObject.delete (fun _ _ => .ok .none)
      ⟨fun j => if j = "b1" then some 0 else Option.none,
       fun n => if n = 0
         then some ⟨.board, [("id", .str "b1")], some [("id", .str "b1")]⟩
         else Option.none, 1⟩ 0 =
      (.error (.notImplemented m),
       ⟨fun j => if j = "b1" then some 0 else Option.none,
        fun n => if n = 0
          then some ⟨.board, [("id", .str "b1")], some [("id", .str "b1")]⟩
          else Option.none, 1⟩)) ∧
    delete_from_api (fun _ _ => .ok .none) (fun _ => Option.none)
        ⟨.organization, [("id", .str "o1")], Option.none⟩ ≠
      .error (.notImplemented "no") := by
  constructor
  · exact c6_delete_restrictions.1 (fun _ _ => .ok .none) _ 0 _ rfl (Or.inl rfl)
  · exact c6_delete_restrictions.2 (fun _ _ => .ok .none) (fun _ => Option.none)
      ⟨.organization, [("id", .str "o1")], Option.none⟩ (Or.inl rfl)
      (fun _ _ _ hx => by cases hx) "no"

/-- Helper: a relation transformer produced for an api key carries that key
as its `api_name`. -/
theorem relation_transformer_api_name (k : Kind) (fn : String) (st : StateTransformer)
    (h : get_relation_transformer_for_api_key k fn = some st) : st.api_name = fn := by
  unfold get_relation_transformer_for_api_key at h
  split at h
  · rename_i hcond
    cases h
    by_cases h2 : fn = API_NESTED_SINGLE_KEY k
    · simp [get_transformer_for_single, h2]
    · have h1 : fn = API_SINGLE_KEY k := hcond.resolve_right h2
      subst h1
      simp [get_transformer_for_single, h2]
  · split at h
    · rename_i hcond
      cases h
      by_cases h2 : fn = API_NESTED_MANY_KEY k
      · simp [get_transformer_for_many, h2]
      · have h1 : fn = API_MANY_KEY k := hcond.resolve_right h2
        subst h1
        simp [get_transformer_for_many, h2]
    · cases h

/-- Helper: a relation transformer's forward callable is one of the
coroutine classmethods `cls.get` / `cls.get_many`. -/
theorem relation_transformer_shape (k : Kind) (fn : String) (st : StateTransformer)
    (h : get_relation_transformer_for_api_key k fn = some st) :
    (∃ k', st.api_transformer = some (.get k')) ∨
    (∃ k', st.api_transformer = some (.getMany k')) := by
  unfold get_relation_transformer_for_api_key at h
  split at h
  · cases h
    exact Or.inl ⟨k, rfl⟩
  · split at h
    · cases h
      exact Or.inr ⟨k, rfl⟩
    · cases h

/-- Helper: the per-key generated transformer carries its key as
`api_name`. -/
theorem generated_entry_api_name (fn : String) : (generated_entry fn).api_name = fn := by
  unfold generated_entry
  rcases hcl : get_class_for_api_key fn with _ | klass
  · simp [hcl]
  · rcases hrel : get_relation_transformer_for_api_key klass fn with _ | st
    · simp [hcl, hrel]
    · simp only [hcl, hrel]
      exact relation_transformer_api_name klass fn st hrel

/-- Helper: the per-key generated transformer's forward callable is absent,
the date parse, or a coroutine classmethod — never `ids_getter`. -/
theorem generated_entry_shape (fn : String) :
    (generated_entry fn).api_transformer = Option.none ∨
    (generated_entry fn).api_transformer = some .dateFromApi ∨
    (∃ k', (generated_entry fn).api_transformer = some (.get k')) ∨
    (∃ k', (generated_entry fn).api_transformer = some (.getMany k')) := by
  unfold generated_entry
  rcases hcl : get_class_for_api_key fn with _ | klass
  · simp only [hcl]
    by_cases hd : containsDate fn
    · simp [hd]
    · simp [hd]
  · rcases hrel : get_relation_transformer_for_api_key klass fn with _ | st
    · simp only [hcl, hrel]
      by_cases hd : containsDate fn
      · simp [hd]
      · simp [hd]
    · simp only [hcl, hrel]
      rcases relation_transformer_shape klass fn st hrel with h1 | h1
      · exact Or.inr (Or.inr (Or.inl h1))
      · exact Or.inr (Or.inr (Or.inr h1))

/-- Helper: `_make_transformers` produces, for every api key of its input,
a transformer whose `api_name` is that key. -/
theorem make_transformers_covers (keys : List String) (fn : String) (h : fn ∈ keys) :
    ∃ st, st ∈ make_transformers keys ∧ st.api_name = fn := by
  induction keys with
  | nil => cases h
  | cons a rest ih =>
    rcases List.mem_cons.mp h with rfl | h'
    · exact ⟨generated_entry fn, List.mem_cons_self _ _, generated_entry_api_name fn⟩
    · obtain ⟨st, hmem, hname⟩ := ih h'
      exact ⟨st, List.mem_cons_of_mem _ hmem, hname⟩

/-- Helper: every transformer generated by `_make_transformers` has a
forward callable of one of the four allowed shapes. -/
theorem make_transformers_shape (keys : List String) (st : StateTransformer)
    (h : st ∈ make_transformers keys) :
    st.api_transformer = Option.none ∨ st.api_transformer = some .dateFromApi ∨
    (∃ k', st.api_transformer = some (.get k')) ∨
    (∃ k', st.api_transformer = some (.getMany k')) := by
  induction keys with
  | nil => cases h
  | cons a rest ih =>
    rcases List.mem_cons.mp h with rfl | h'
    · exact generated_entry_shape a
    · exact ih h'

/-- Helper: the additional (override-hook) transformers also use coroutine
forward callables only. -/
theorem additional_transformers_shape (k : Kind) (st : StateTransformer)
    (h : st ∈ get_additional_transformers k) :
    st.api_transformer = Option.none ∨ st.api_transformer = some .dateFromApi ∨
    (∃ k', st.api_transformer = some (.get k')) ∨
    (∃ k', st.api_transformer = some (.getMany k')) := by
  cases k
  case checklist =>
    rcases List.mem_singleton.mp h with rfl
    exact Or.inr (Or.inr (Or.inr ⟨.checkItem, rfl⟩))
  all_goals exact absurd h (List.not_mem_nil _)

/-- Helper: every declared api field resolves to a transformer. -/
theorem get_transformer_for_api_key_isSome (k : Kind) (key : String)
    (h : key ∈ API_FIELDS k) : (get_transformer_for_api_key k key).isSome := by
  unfold get_transformer_for_api_key
  rcases ha : (get_additional_transformers k).find? (fun st => st.api_name == key) with _ | t
  · simp only [ha]
    obtain ⟨st, hmem, hname⟩ := make_transformers_covers (API_FIELDS k) key h
    rw [List.find?_isSome]
    exact ⟨st, hmem, by simp [hname]⟩
  · simp [ha]

/-- Helper: a transformer resolved for an api key comes from the generated
table or the additional hook, so its forward callable has one of the four
allowed shapes. -/
theorem get_transformer_for_api_key_shape (k : Kind) (key : String) (st : StateTransformer)
    (h : get_transformer_for_api_key k key = some st) :
    st.api_transformer = Option.none ∨ st.api_transformer = some .dateFromApi ∨
    (∃ k', st.api_transformer = some (.get k')) ∨
    (∃ k', st.api_transformer = some (.getMany k')) := by
  unfold get_transformer_for_api_key at h
  rcases ha : (get_additional_transformers k).find? (fun st => st.api_name == key) with _ | t
  · rw [ha] at h
    exact make_transformers_shape _ st (List.mem_of_find?_eq_some h)
  · rw [ha] at h
    cases h
    exact additional_transformers_shape k st (List.mem_of_find?_eq_some ha)

/-- Helper: a forward transformer of one of the allowed shapes never raises
from `_run_transformer_func` (it returns a value or defers as a coroutine). -/
theorem run_forward_no_err (heap : Heap) (v : PyVal) (t : Option TransFn)
    (hshape : t = Option.none ∨ t = some .dateFromApi ∨
      (∃ k', t = some (.get k')) ∨ (∃ k', t = some (.getMany k'))) :
    ∀ e, run_transformer_func heap v (if PyVal.beq v .none then Option.none else t) ≠ .err e := by
  intro e hc
  by_cases hv : PyVal.beq v .none
  · rw [if_pos hv] at hc
    cases hc
  · rw [if_neg hv] at hc
    rcases hshape with rfl | rfl | ⟨k', rfl⟩ | ⟨k', rfl⟩ <;>
      simp [run_transformer_func, isCoroutineFn] at hc

/-- Helper: with inflation on, the synchronous pass of `_state_from_api`
succeeds on any payload all of whose keys are declared fields (transformers
exist for each, and forward transformers either apply or defer — they never
raise). -/
theorem syncPass_ok (heap : Heap) (k : Kind) (d : List (String × PyVal))
    (hkeys : ∀ key ∈ d.map Prod.fst, key ∈ API_FIELDS k) :
    ∀ o q, (syncPass heap k true d o q).1 = .ok () := by
  induction d with
  | nil => intro o q; rfl
  | cons kv rest ih =>
    intro o q
    obtain ⟨key, v⟩ := kv
    have hk : key ∈ API_FIELDS k := hkeys key (by simp)
    have hks : ∀ key' ∈ rest.map Prod.fst, key' ∈ API_FIELDS k :=
      fun key' h' => hkeys key' (by simp [h'])
    have hcont : (API_FIELDS k).contains key = true := List.elem_eq_true_of_mem hk
    rcases ht : get_transformer_for_api_key k key with _ | st
    · have := get_transformer_for_api_key_isSome k key hk
      rw [ht] at this
      cases this
    · unfold syncPass
      simp only [Bool.not_true, if_false, hcont, Bool.not_false, ite_false, ht]
      rcases hr : run_transformer_func heap v
          (if PyVal.beq v .none then Option.none else st.api_transformer) with v' | _ | e
      · exact ih hks _ _
      · exact ih hks _ _
      · exact absurd hr (by
          have hx := run_forward_no_err heap v st.api_transformer
            (get_transformer_for_api_key_shape k key st ht) e
          simpa using hx)

/-- Helper: with inflation on, the synchronous pass fails with the
unknown-field `ValueError` naming the *first* payload key that is not a
declared field. -/
theorem syncPass_extra_key (heap : Heap) (k : Kind) (d : List (String × PyVal))
    (key : String)
    (hfind : (d.map Prod.fst).find? (fun kk => !(API_FIELDS k).contains kk) = some key) :
    ∀ o q, (syncPass heap k true d o q).1 = .error (.unknownApiField key) := by
  induction d with
  | nil => cases hfind
  | cons kv rest ih =>
    intro o q
    obtain ⟨key0, v⟩ := kv
    by_cases hp : (API_FIELDS k).contains key0 = true
    · have hk : key0 ∈ API_FIELDS k := List.mem_of_elem_eq_true hp
      have hfind' : (rest.map Prod.fst).find? (fun kk => !(API_FIELDS k).contains kk) = some key := by
        rw [List.map_cons, List.find?_cons_of_neg] at hfind
        · exact hfind
        · simp [hk]
      rcases ht : get_transformer_for_api_key k key0 with _ | st
      · have := get_transformer_for_api_key_isSome k key0 hk
        rw [ht] at this
        cases this
      · unfold syncPass
        simp only [Bool.not_true, if_false, hp, Bool.not_false, ite_false, ht]
        rcases hr : run_transformer_func heap v
            (if PyVal.beq v .none then Option.none else st.api_transformer) with v' | _ | e
        · exact ih hfind' _ _
        · exact ih hfind' _ _
        · exact absurd hr (by
            have hx := run_forward_no_err heap v st.api_transformer
              (get_transformer_for_api_key_shape k key0 st ht) e
            simpa using hx)
    · have hcont : (API_FIELDS k).contains key0 = false := by
        cases hx : (API_FIELDS k).contains key0
        · rfl
        · exact absurd hx hp
      have hmem : key0 ∉ API_FIELDS k :=
        fun hmm => hp (List.elem_eq_true_of_mem hmm)
      have hkey : key0 = key := by
        rw [List.map_cons, List.find?_cons_of_pos] at hfind
        · exact Option.some.inj hfind
        · show (!(API_FIELDS k).contains key0) = true
          rw [hcont]
          rfl
      subst hkey
      unfold syncPass
      simp [hcont, hmem]

/-- Helper: with inflation on, `_state_from_api` succeeds on any payload
all of whose keys are declared fields (Card's pre-materialization step only
removes a key). -/
theorem state_from_api_ok (infl : InflOracle) (heap : Heap) (o : Obj)
    (d : List (String × PyVal))
    (hkeys : ∀ key ∈ d.map Prod.fst, key ∈ API_FIELDS o.kind) :
    (state_from_api infl heap o d true).1 = .ok () := by
  have base : ∀ (d' : List (String × PyVal)),
      (∀ key ∈ d'.map Prod.fst, key ∈ API_FIELDS o.kind) →
      (state_from_api_base infl heap o d' true).1 = .ok () := by
    intro d' hkeys'
    unfold state_from_api_base
    dsimp only
    rcases hs : syncPass heap o.kind true d' { o with raw_data := some d' } [] with ⟨res, o2, q⟩
    have hres := syncPass_ok heap o.kind d' hkeys' { o with raw_data := some d' } []
    rw [hs] at hres
    simp only at hres
    subst hres
    rfl
  have hsub : ∀ key ∈ (eraseKey d "idLabels").map Prod.fst, key ∈ API_FIELDS o.kind := by
    intro key hkey
    apply hkeys
    simp only [List.mem_map] at hkey ⊢
    obtain ⟨kv, hkv, hfst⟩ := hkey
    unfold eraseKey at hkv
    exact ⟨kv, List.mem_of_mem_filter hkv, hfst⟩
  unfold state_from_api
  rcases ho : o.kind with _ | _ | _ | _ | _ | _ | _ | _ <;> dsimp only
  case card =>
    split
    · exact base _ hsub
    · exact base _ hkeys
  all_goals exact base _ hkeys

/-- Helper: `cls(tc, id=id_)` succeeds for every subclass except
`CheckItem` (whose constructor demands a checklist id). -/
theorem newObj_ok (k : Kind) (s : String) (h : k ≠ .checkItem) :
    newObj k s = .ok ⟨k, [("id", .str s)], Option.none⟩ := by
  cases k <;> first | rfl | exact absurd rfl h

/-- Helper: for every subclass except `Card`, `_state_from_api` is the base
materialization (no pre-materialization step). -/
theorem state_from_api_eq_base_of_ne_card (infl : InflOracle) (heap : Heap) (o : Obj)
    (d : List (String × PyVal)) (inflate : Bool) (h : o.kind ≠ .card) :
    state_from_api infl heap o d inflate = state_from_api_base infl heap o d inflate := by
  unfold state_from_api
  rcases ho : o.kind with _ | _ | _ | _ | _ | _ | _ | _ <;> dsimp only
  case card => exact absurd ho h

/-- Helper: the base materialization with inflation fails with the
unknown-field `ValueError` at the first undeclared payload key. -/
theorem state_from_api_base_extra (infl : InflOracle) (heap : Heap) (o : Obj)
    (d : List (String × PyVal)) (key : String)
    (hfind : (d.map Prod.fst).find? (fun kk => !(API_FIELDS o.kind).contains kk) = some key) :
    (state_from_api_base infl heap o d true).1 = .error (.unknownApiField key) := by
  unfold state_from_api_base
  dsimp only
  rcases hs : syncPass heap o.kind true d { o with raw_data := some d } [] with ⟨res, o2, q⟩
  have he := syncPass_extra_key heap o.kind d key hfind { o with raw_data := some d } []
  rw [hs] at he
  simp only at he
  subst he
  rfl

/-- C3 counterexample: the claim says *every* payload whose key set does
not equal the declared field set makes `get` fail listing extra and
missing keys; but `get` with the inline payload `{"id": "x"}` against
`Label` (whose declared fields are color, id, idBoard, name, uses — so the
key set mismatches with four missing keys) succeeds without any error. -/
theorem c3_counterexample :
    (is_valid_data .label [("id", PyVal.str "x")]).1 = false ∧
    (TrelloObject.get .label (fun _ _ => []) (fun _ _ => .ok .none)
        (.byData [("id", .str "x")]) true
        ⟨fun _ => Option.none, fun _ => Option.none, 0⟩).1 = .ok 0 := by
  refine ⟨rfl, rfl⟩

/-- C3 (amended): `get` validates the payload's key set only on the
fetch-by-id path, where a response failing `is_valid_data` raises the
`ValueError` carrying *both* the extra and the missing key lists; `get`
with inline data performs no missing-key check — a payload whose keys are
all declared materializes successfully whatever keys are absent — and
fails only when a payload key falls outside the declared field set, with
the materialize-time `ValueError` naming that first offending key alone. -/
theorem c3_schema_validation (k : Kind) (fetch : FetchOracle) (infl : InflOracle)
    (w : World) :
    (∀ id_, obj_cache.get w.cache id_ = Option.none →
      ∀ extra missing, is_valid_data k (fetch k id_) = (false, extra, missing) →
      ∀ inflate, TrelloObject.get k fetch infl (.byId id_) inflate w =
        (.error (.invalidApiData extra missing), w)) ∧
    (∀ d s, k ≠ .checkItem →
      idAndData (.byData d) = .ok (s, some d) →
      obj_cache.get w.cache s = Option.none →
      (∀ key ∈ d.map Prod.fst, key ∈ API_FIELDS k) →
      (TrelloObject.get k fetch infl (.byData d) true w).1 = .ok w.nextRef) ∧
    (∀ d s key, k ≠ .checkItem → k ≠ .card →
      idAndData (.byData d) = .ok (s, some d) →
      obj_cache.get w.cache s = Option.none →
      (d.map Prod.fst).find? (fun kk => !(API_FIELDS k).contains kk) = some key →
      (TrelloObject.get k fetch infl (.byData d) true w).1 =
        .error (.unknownApiField key)) := by
  refine ⟨?_, ?_, ?_⟩
  · intro id_ hcache extra missing hv inflate
    unfold TrelloObject.get
    simp only [idAndData, hcache, hv]
  · intro d s hck hid hcache hkeys
    unfold TrelloObject.get
    simp only [hid, hcache, newObj_ok k s hck]
    rcases hsf : state_from_api infl
        (Heap.set w.objs w.nextRef ⟨k, [("id", .str s)], Option.none⟩)
        ⟨k, [("id", .str s)], Option.none⟩ d true with ⟨res, o1⟩
    have hok := state_from_api_ok infl
        (Heap.set w.objs w.nextRef ⟨k, [("id", .str s)], Option.none⟩)
        ⟨k, [("id", .str s)], Option.none⟩ d hkeys
    rw [hsf] at hok
    simp only at hok
    subst hok
    rfl
  · intro d s key hck hcard hid hcache hfind
    unfold TrelloObject.get
    simp only [hid, hcache, newObj_ok k s hck]
    rw [state_from_api_eq_base_of_ne_card infl _ _ d true hcard]
    rcases hsf : state_from_api_base infl
        (Heap.set w.objs w.nextRef ⟨k, [("id", .str s)], Option.none⟩)
        ⟨k, [("id", .str s)], Option.none⟩ d true with ⟨res, o1⟩
    have herr := state_from_api_base_extra infl
        (Heap.set w.objs w.nextRef ⟨k, [("id", .str s)], Option.none⟩)
        ⟨k, [("id", .str s)], Option.none⟩ d key hfind
    rw [hsf] at herr
    simp only at herr
    subst herr
    rfl

/-- Witness for C3 on concrete inputs: fetching a `Label` by id whose
response is `{"unexpectedKey": 1, "id": "x"}` fails listing the extra key
`unexpectedKey` and the missing keys `color`, `idBoard`, `name`, `uses`;
the inline payload `{"id": "x"}` (missing most fields) materializes
successfully; the inline payload `{"id": "x", "unexpectedKey": 1}` fails
naming only `unexpectedKey`. -/
theorem c3_schema_validation_witness :
    TrelloObject.get .label
        (fun _ _ => [("unexpectedKey", .int 1), ("id", .str "x")])
        (fun _ _ => .ok .none) (.byId "x") true
        ⟨fun _ => Option.none, fun _ => Option.none, 0⟩ =
      (.error (.invalidApiData ["unexpectedKey"] ["color", "idBoard", "name", "uses"]),
       ⟨fun _ => Option.none, fun _ => Option.none, 0⟩) ∧
    (TrelloObject.get .label (fun _ _ => []) (fun _ _ => .ok .none)
        (.byData [("id", .str "x")]) true
        ⟨fun _ => Option.none, fun _ => Option.none, 0⟩).1 = .ok 0 ∧
    (TrelloObject.get .label (fun _ _ => []) (fun _ _ => .ok .none)
        (.byData [("id", .str "x"), ("unexpectedKey", .int 1)]) true
        ⟨fun _ => Option.none, fun _ => Option.none, 0⟩).1 =
      .error (.unknownApiField "unexpectedKey") := by
  refine ⟨?_, ?_, ?_⟩
  · exact (c3_schema_validation .label
      (fun _ _ => [("unexpectedKey", .int 1), ("id", .str "x")]) (fun _ _ => .ok .none)
      ⟨fun _ => Option.none, fun _ => Option.none, 0⟩).1 "x" rfl
      ["unexpectedKey"] ["color", "idBoard", "name", "uses"] (by decide) true
  · exact (c3_schema_validation .label (fun _ _ => []) (fun _ _ => .ok .none)
      ⟨fun _ => Option.none, fun _ => Option.none, 0⟩).2.1 [("id", .str "x")] "x"
      (by decide) rfl rfl (by decide)
  · exact (c3_schema_validation .label (fun _ _ => []) (fun _ _ => .ok .none)
      ⟨fun _ => Option.none, fun _ => Option.none, 0⟩).2.2
      [("id", .str "x"), ("unexpectedKey", .int 1)] "x" "unexpectedKey"
      (by decide) (by decide) rfl rfl (by decide)

/-- Helper: `get` with a bare id that is already cached returns the cached
reference and leaves the world untouched (none of the three mutation
branches applies). -/
theorem get_cached_byId (k : Kind) (fetch : FetchOracle) (infl : InflOracle)
    (inflate : Bool) (w : World) (id_ : String) (r : Nat)
    (h : obj_cache.get w.cache id_ = some r) :
    TrelloObject.get k fetch infl (.byId id_) inflate w = (.ok r, w) := by
  unfold TrelloObject.get
  simp only [idAndData, h]

/-- Helper: one `get` call never disturbs an existing cache entry:
`obj_cache.set` is only reached for an id that the cache did not contain,
and the cache-hit branches do not write the cache at all. -/
theorem get_preserves_cache (k : Kind) (fetch : FetchOracle) (infl : InflOracle)
    (doi : DataOrId) (inflate : Bool) (w : World) (id_ : String) (r : Nat)
    (h : obj_cache.get w.cache id_ = some r) :
    obj_cache.get ((TrelloObject.get k fetch infl doi inflate w).2).cache id_ = some r := by
  unfold TrelloObject.get
  rcases hid : idAndData doi with e | ⟨s, data⟩
  · exact h
  · dsimp only
    rcases hc : obj_cache.get w.cache s with _ | r'
    · have hne : id_ ≠ s := by
        intro hcc
        rw [hcc, hc] at h
        cases h
      rcases data with _ | d
      · dsimp only
        rcases hv : is_valid_data k (fetch k s) with ⟨valid, extra, missing⟩
        cases valid
        · exact h
        · dsimp only
          rcases hn : newObj k s with e | o
          · exact h
          · dsimp only
            cases hres : (state_from_api infl
                (Heap.set w.objs w.nextRef o) o (fetch k s) inflate).1 <;>
              · dsimp only
                simp only [obj_cache.get, obj_cache.set, if_neg hne]
                exact h
      · dsimp only
        rcases hn : newObj k s with e | o
        · exact h
        · dsimp only
          cases hres : (state_from_api infl
              (Heap.set w.objs w.nextRef o) o d inflate).1 <;>
            · dsimp only
              simp only [obj_cache.get, obj_cache.set, if_neg hne]
              exact h
    · rcases data with _ | d
      · exact h
      · dsimp only
        rcases ho : w.objs r' with _ | o
        · exact h
        · dsimp only
          cases hres : (state_from_api infl w.objs o d inflate).1 <;> exact h

/-- Helper: a whole sequence of `get` calls preserves an existing cache
entry. -/
theorem runGets_preserves_cache (fetch : FetchOracle) (infl : InflOracle)
    (ops : List GetCall) (w : World) (id_ : String) (r : Nat)
    (h : obj_cache.get w.cache id_ = some r) :
    obj_cache.get ((runGets fetch infl ops w).cache) id_ = some r := by
  induction ops generalizing w with
  | nil => exact h
  | cons op rest ih =>
    obtain ⟨k, doi, inflate⟩ := op
    exact ih _ (get_preserves_cache k fetch infl doi inflate w id_ r h)

/-- C1: after a successful `get(id)` the returned instance is registered in
the identity cache under that id, and — with no intervening `delete` —
*every* later `get(id)` call, even after an arbitrary sequence of other
`get` operations (which is how nested inflation re-enters `get`), returns
that same cached instance and changes nothing, so at most one in-memory
object exists per remote id. -/
theorem c1_get_identity (k : Kind) (fetch : FetchOracle) (infl : InflOracle)
    (inflate : Bool) (w0 : World) (id_ : String) (r1 : Nat) (w1 : World)
    (h : TrelloObject.get k fetch infl (.byId id_) inflate w0 = (.ok r1, w1)) :
    obj_cache.get w1.cache id_ = some r1 ∧
    ∀ ops : List GetCall,
      TrelloObject.get k fetch infl (.byId id_) inflate (runGets fetch infl ops w1) =
        (.ok r1, runGets fetch infl ops w1) := by
  have hcached : obj_cache.get w1.cache id_ = some r1 := by
    unfold TrelloObject.get at h
    simp only [idAndData] at h
    rcases hc : obj_cache.get w0.cache id_ with _ | r'
    · rw [hc] at h
      dsimp only at h
      rcases hv : is_valid_data k (fetch k id_) with ⟨valid, extra, missing⟩
      rw [hv] at h
      cases valid
      · cases h
      · rcases hn : newObj k id_ with e | o
        · rw [hn] at h
          cases h
        · rw [hn] at h
          dsimp only at h
          cases hres : (state_from_api infl
              (Heap.set w0.objs w0.nextRef o) o (fetch k id_) inflate).1 <;>
            rw [hres] at h
          · cases h
          · cases h
            simp [obj_cache.get, obj_cache.set]
    · rw [hc] at h
      cases h
      exact hc
  refine ⟨hcached, ?_⟩
  intro ops
  exact get_cached_byId k fetch infl inflate _ id_ r1
    (runGets_preserves_cache fetch infl ops w1 id_ r1 hcached)

/-- Witness for C1: fetching label "x" into an empty world caches it under
reference 0, and a second `get("x")` — after an unrelated intervening `get`
— returns the same reference 0 without touching the world. -/
theorem c1_get_identity_witness :
    obj_cache.get ((TrelloObject.get .label
        (fun _ _ => [("color", .str "red"), ("id", .str "x"), ("idBoard", .str "b"),
                     ("name", .str "n"), ("uses", .int 0)])
        (fun _ _ => .ok (.ref 50)) (.byId "x") true
        ⟨fun _ => Option.none, fun _ => Option.none, 0⟩).2).cache "x" = some 0 ∧
    TrelloObject.get .label
        (fun _ _ => [("color", .str "red"), ("id", .str "x"), ("idBoard", .str "b"),
                     ("name", .str "n"), ("uses", .int 0)])
        (fun _ _ => .ok (.ref 50)) (.byId "x") true
        (runGets
          (fun _ _ => [("color", .str "red"), ("id", .str "x"), ("idBoard", .str "b"),
                       ("name", .str "n"), ("uses", .int 0)])
          (fun _ _ => .ok (.ref 50)) [.call .checkItem (.byData [("id", .str "c9")]) false]
          (TrelloObject.get .label
            (fun _ _ => [("color", .str "red"), ("id", .str "x"), ("idBoard", .str "b"),
                         ("name", .str "n"), ("uses", .int 0)])
            (fun _ _ => .ok (.ref 50)) (.byId "x") true
            ⟨fun _ => Option.none, fun _ => Option.none, 0⟩).2) =
      (.ok 0, runGets
          (fun _ _ => [("color", .str "red"), ("id", .str "x"), ("idBoard", .str "b"),
                       ("name", .str "n"), ("uses", .int 0)])
          (fun _ _ => .ok (.ref 50)) [.call .checkItem (.byData [("id", .str "c9")]) false]
          (TrelloObject.get .label
            (fun _ _ => [("color", .str "red"), ("id", .str "x"), ("idBoard", .str "b"),
                         ("name", .str "n"), ("uses", .int 0)])
            (fun _ _ => .ok (.ref 50)) (.byId "x") true
            ⟨fun _ => Option.none, fun _ => Option.none, 0⟩).2) := by
  have h : TrelloObject.get .label
      (fun _ _ => [("color", .str "red"), ("id", .str "x"), ("idBoard", .str "b"),
                   ("name", .str "n"), ("uses", .int 0)])
      (fun _ _ => .ok (.ref 50)) (.byId "x") true
      ⟨fun _ => Option.none, fun _ => Option.none, 0⟩ =
      (.ok 0, (TrelloObject.get .label
        (fun _ _ => [("color", .str "red"), ("id", .str "x"), ("idBoard", .str "b"),
                     ("name", .str "n"), ("uses", .int 0)])
        (fun _ _ => .ok (.ref 50)) (.byId "x") true
        ⟨fun _ => Option.none, fun _ => Option.none, 0⟩).2) :=
    Prod.ext rfl rfl
  have hh := c1_get_identity .label
      (fun _ _ => [("color", .str "red"), ("id", .str "x"), ("idBoard", .str "b"),
                   ("name", .str "n"), ("uses", .int 0)])
      (fun _ _ => .ok (.ref 50)) true
      ⟨fun _ => Option.none, fun _ => Option.none, 0⟩ "x" 0 _ h
  exact ⟨hh.1, hh.2 [.call .checkItem (.byData [("id", .str "c9")]) false]⟩
